import Mathlib

/-!
# Verification of the AI Agriculture Suite prediction core

A shallow embedding of the five feature-to-decision predictors of
`models/ml_models.py` and of the advisory dialogue engine of
`models/chatbot.py`, together with theorems settling the specification
claims about them.

Conventions of the embedding:
* Python floats are modelled as exact rationals (`ℚ`); Python's `round(x, n)`
  (round-half-to-even on the scaled value) is modelled by `rhe`.
* A feature mapping is modelled as a structure of `Option`-valued fields:
  `none` models an absent key, `some v` a present one, matching
  `features.get(key, default)` and `key in features` in the source.
* Ambient non-determinism (calls to `np.random.*`, `random.choice`,
  `datetime.now()`) is passed in explicitly: each predictor receives the
  drawn values and the clock string as arguments.
-/

namespace AgriSuite

/-! ## Python rounding

`round(x, k)` in Python rounds `x * 10^k` half-to-even and rescales. -/

/-- Round-half-to-even of a rational to an integer (Python's tie rule). -/
def rhe (x : ℚ) : ℤ :=
  if x - ⌊x⌋ < 1 / 2 then ⌊x⌋
  else if 1 / 2 < x - ⌊x⌋ then ⌊x⌋ + 1
  else if ⌊x⌋ % 2 = 0 then ⌊x⌋ else ⌊x⌋ + 1

/-- Python `round(x, 1)`. -/
def round1 (x : ℚ) : ℚ := (rhe (10 * x) : ℚ) / 10

/-- Python `round(x, 2)`. -/
def round2 (x : ℚ) : ℚ := (rhe (100 * x) : ℚ) / 100

/-- Python `round(x, 3)`. -/
def round3 (x : ℚ) : ℚ := (rhe (1000 * x) : ℚ) / 1000

/-! ## Python string helpers -/

/-- Python `str.lower()` (ASCII letters, as used by the sources). -/
def pyLower (s : String) : String := String.mk (s.data.map Char.toLower)

/-- Helper for `pyTitle`: capitalise the first letter of every alphabetic
run, lowercase the rest; `prev` records whether the previous character was
alphabetic. -/
def pyTitleAux : Bool → List Char → List Char
  | _, [] => []
  | prev, c :: cs =>
      (if c.isAlpha then (if prev then c.toLower else c.toUpper) else c)
        :: pyTitleAux c.isAlpha cs

/-- Python `str.title()`. -/
def pyTitle (s : String) : String := String.mk (pyTitleAux false s.data)

/-- Python `str.replace('_', ' ')`. -/
def underscoreToSpace (s : String) : String :=
  String.mk (s.data.map (fun c => if c = '_' then ' ' else c))

/-- Substring test on character lists (Python's `sub in s`). -/
def isSubChars (sub : List Char) : List Char → Bool
  | [] => sub.isEmpty
  | c :: cs => sub.isPrefixOf (c :: cs) || isSubChars sub cs

/-- Python `sub in s` on strings. -/
def pyContains (s sub : String) : Bool := isSubChars sub.data s.data

/-! ## The uniform result contract (`PredictionResult`) -/

/-- Embedding of the `PredictionResult` dataclass: `π` is the type of the
`prediction` field, `δ` the shape of the `details` mapping.  The
`timestamp` is the `datetime.now().isoformat()` string supplied by the
ambient clock at construction. -/
structure PredictionResult (π δ : Type) where
  prediction : π
  confidence : ℚ
  details : δ
  model_used : String
  timestamp : String

/-! ## Crop yield predictor (`CropYieldPredictor`) -/

/-- Feature mapping accepted by `CropYieldPredictor.predict`. -/
structure YieldFeatures where
  crop : Option String
  temperature : Option ℚ
  rainfall : Option ℚ
  soil_ph : Option ℚ
  nitrogen : Option ℚ
  irrigation_type : Option String

/-- Embedding of `self.base_yields.get(crop, 4.0)`. -/
def baseYieldOf (c : String) : ℚ :=
  if c = "wheat" then 4.0 else if c = "rice" then 5.0
  else if c = "maize" then 6.0 else if c = "soybean" then 2.5
  else if c = "cotton" then 2.0 else if c = "sugarcane" then 70.0
  else if c = "potato" then 30.0 else if c = "tomato" then 35.0
  else 4.0

/-- Embedding of `irrigation_effects.get(irrigation_type, 1.0)`. -/
def irrEffectOf (c : String) : ℚ :=
  if c = "drip" then 1.20 else if c = "sprinkler" then 1.10
  else if c = "flood" then 1.0 else if c = "rainfed" then 0.75
  else 1.0

/-- Embedding of `CropYieldPredictor._generate_recommendations`. -/
def yieldRecommendations (f : YieldFeatures) (tempEff rainEff phEff : ℚ) :
    List String :=
  let recs :=
    (if tempEff < 0.85 then
      [if 30 < f.temperature.getD 25 then
        "Consider shade nets or adjust planting time to avoid heat stress"
       else "Use mulching or row covers to maintain optimal temperature"]
     else []) ++
    (if rainEff < 0.8 then
      [if f.rainfall.getD 100 < 80 then
        "Increase irrigation frequency to compensate for low rainfall"
       else "Ensure proper drainage to prevent waterlogging"]
     else []) ++
    (if phEff < 0.9 then
      [if f.soil_ph.getD 6.5 < 6.0 then "Apply lime to increase soil pH"
       else "Add sulfur or organic matter to lower soil pH"]
     else []) ++
    (if pyLower (f.irrigation_type.getD "") = "rainfed" then
      ["Consider installing drip irrigation for 20-30% yield improvement"]
     else [])
  if recs.isEmpty then ["Current conditions are favorable for optimal yield"]
  else recs

/-- Number of the five optional numeric keys explicitly present
(`provided_features` in the source). -/
def providedFeatures (f : YieldFeatures) : ℕ :=
  (if f.temperature.isSome then 1 else 0) +
  (if f.rainfall.isSome then 1 else 0) +
  (if f.soil_ph.isSome then 1 else 0) +
  (if f.nitrogen.isSome then 1 else 0) +
  (if f.irrigation_type.isSome then 1 else 0)

/-- The `factors` sub-mapping of the yield details. -/
structure YieldFactors where
  temperature_effect : ℚ
  rainfall_effect : ℚ
  soil_ph_effect : ℚ
  fertilizer_effect : ℚ
  irrigation_effect : ℚ

/-- The `details` mapping of a yield prediction. -/
structure YieldDetails where
  crop : String
  yield_per_hectare_tons : ℚ
  yield_low : ℚ
  yield_high : ℚ
  factors : YieldFactors
  recommendations : List String

/-- Embedding of `CropYieldPredictor.predict`; `variance` is the value drawn by
`np.random.uniform(0.95, 1.05)` and `now` the clock string. -/
def yieldPredict (f : YieldFeatures) (variance : ℚ) (now : String) :
    PredictionResult ℚ YieldDetails :=
  let crop := pyLower (f.crop.getD "wheat")
  let baseYield := baseYieldOf crop
  let temp := f.temperature.getD 25
  let tempEff := max 0.5 (min 1.2 (1 - |temp - 24| * 0.015))
  let rainfall := f.rainfall.getD 100
  let rainEff0 :=
    if rainfall < 50 then 0.6 + rainfall / 50 * 0.3
    else if rainfall < 200 then 0.9 + (rainfall - 50) / 150 * 0.2
    else 1.1 - (rainfall - 200) / 500 * 0.3
  let rainEff := max 0.4 (min 1.2 rainEff0)
  let ph := f.soil_ph.getD 6.5
  let phEff := max 0.7 (min 1.1 (1 - |ph - 6.5| * 0.08))
  let nitrogen := f.nitrogen.getD 200
  let fertEff := min 1.2 (0.7 + nitrogen / 400 * 0.5)
  let irrEff := irrEffectOf (pyLower (f.irrigation_type.getD "flood"))
  let py := baseYield * tempEff * rainEff * phEff * fertEff * irrEff * variance
  let conf := 0.6 + (providedFeatures f : ℚ) / 5 * 0.35
  { prediction := round2 py
    confidence := round2 conf
    details :=
      { crop := crop
        yield_per_hectare_tons := round2 py
        yield_low := round2 (py * 0.85)
        yield_high := round2 (py * 1.15)
        factors :=
          { temperature_effect := round3 tempEff
            rainfall_effect := round3 rainEff
            soil_ph_effect := round3 phEff
            fertilizer_effect := round3 fertEff
            irrigation_effect := round3 irrEff }
        recommendations := yieldRecommendations f tempEff rainEff phEff }
    model_used := "CropYieldPredictor_v1"
    timestamp := now }

/-! ## Crop disease detector (`CropDiseaseDetector`) -/

/-- Feature mapping accepted by `CropDiseaseDetector.detect`. -/
structure DiseaseFeatures where
  leaf_color_g : Option ℚ
  spot_density : Option ℚ
  affected_area_pct : Option ℚ
  humidity : Option ℚ
  temperature : Option ℚ

/-- Embedding of `self.diseases[d]['severity']`. -/
def diseaseSeverityOf (d : String) : ℕ :=
  if d = "healthy" then 0 else if d = "leaf_blight" then 3
  else if d = "powdery_mildew" then 2 else if d = "rust" then 4
  else if d = "bacterial_spot" then 3 else if d = "mosaic_virus" then 5
  else if d = "root_rot" then 4 else if d = "anthracnose" then 3
  else if d = "downy_mildew" then 2 else 5

/-- Embedding of `self.diseases[d]['urgency']`. -/
def diseaseUrgencyOf (d : String) : String :=
  if d = "healthy" then "none" else if d = "leaf_blight" then "medium"
  else if d = "powdery_mildew" then "low" else if d = "rust" then "high"
  else if d = "bacterial_spot" then "medium" else if d = "mosaic_virus" then "critical"
  else if d = "root_rot" then "high" else if d = "anthracnose" then "medium"
  else if d = "downy_mildew" then "low" else "critical"

/-- Embedding of `self.treatments[d]`. -/
def treatmentOf (d : String) : String :=
  if d = "healthy" then "No treatment needed. Continue regular monitoring."
  else if d = "leaf_blight" then "Apply Mancozeb (2.5g/L) or Copper oxychloride. Remove infected leaves."
  else if d = "powdery_mildew" then "Apply Sulfur dust or Karathane spray (2g/L). Improve air circulation."
  else if d = "rust" then "Apply Propiconazole or Tebuconazole (1ml/L). Use resistant varieties next season."
  else if d = "bacterial_spot" then "Apply Streptomycin (0.5g/L) + Copper spray. Avoid overhead irrigation."
  else if d = "mosaic_virus" then "Remove infected plants. Control aphid vectors. No cure available."
  else if d = "root_rot" then "Improve drainage. Apply Trichoderma. Avoid overwatering."
  else if d = "anthracnose" then "Apply Carbendazim (1g/L). Remove infected plant parts."
  else if d = "downy_mildew" then "Apply Metalaxyl + Mancozeb. Reduce humidity around plants."
  else "Soil solarization. Use resistant varieties. Apply biocontrol agents."

/-- Embedding of `CropDiseaseDetector._get_prevention_tips` (`tips.get(disease, default)`). -/
def preventionTipsOf (d : String) : List String :=
  if d = "healthy" then ["Continue crop rotation", "Monitor regularly", "Maintain plant spacing"]
  else if d = "leaf_blight" then ["Use certified seeds", "Crop rotation", "Remove crop debris"]
  else if d = "powdery_mildew" then ["Ensure air circulation", "Avoid overhead watering", "Plant resistant varieties"]
  else if d = "rust" then ["Use resistant varieties", "Apply fungicide preventively", "Remove alternate hosts"]
  else if d = "bacterial_spot" then ["Use disease-free seeds", "Avoid working with wet plants", "Copper spray prevention"]
  else if d = "mosaic_virus" then ["Control aphids", "Use virus-free seeds", "Remove infected plants immediately"]
  else if d = "root_rot" then ["Improve drainage", "Avoid overwatering", "Soil solarization"]
  else if d = "anthracnose" then ["Remove infected parts", "Avoid overhead irrigation", "Apply fungicide in humid weather"]
  else if d = "downy_mildew" then ["Improve ventilation", "Avoid evening irrigation", "Use resistant varieties"]
  else if d = "fusarium_wilt" then ["Soil solarization", "Crop rotation (4+ years)", "Use resistant rootstocks"]
  else ["Monitor regularly", "Maintain good hygiene", "Consult expert"]

/-- Embedding of `['None', 'Very Low', 'Low', 'Medium', 'High', 'Critical'][severity]`. -/
def severityLabels : List String :=
  ["None", "Very Low", "Low", "Medium", "High", "Critical"]

/-- The disease label drawn by `np.random.choice`; `pick` indexes into the
candidate list of the selected environmental branch. -/
def diseaseDrawn (sd hum temp : ℚ) (pick : Fin 3) : String :=
  if 80 < hum ∧ 25 < temp then
    ["leaf_blight", "downy_mildew", "anthracnose"].getD pick.1 ""
  else if 70 < hum ∧ temp < 22 then
    ["powdery_mildew", "rust", "bacterial_spot"].getD pick.1 ""
  else if 0.5 < sd then
    ["bacterial_spot", "anthracnose", "rust"].getD pick.1 ""
  else
    ["leaf_blight", "mosaic_virus", "fusarium_wilt"].getD pick.1 ""

/-- The `details` mapping of a disease detection. -/
structure DiseaseDetails where
  disease : String
  severity : ℕ
  severity_label : String
  urgency : String
  affected_area_pct : ℚ
  treatment : String
  prevention_tips : List String
  estimated_yield_impact : String

/-- Embedding of `CropDiseaseDetector.detect`; `pick` is the outcome of the weighted
random draw used when the sample is not healthy. -/
def diseaseDetect (f : DiseaseFeatures) (pick : Fin 3) (now : String) :
    PredictionResult String DiseaseDetails :=
  let sd := f.spot_density.getD 0
  let aa := f.affected_area_pct.getD 0
  let hum := f.humidity.getD 60
  let temp := f.temperature.getD 25
  let disease :=
    if aa < 5 ∧ sd < 0.1 then "healthy" else diseaseDrawn sd hum temp pick
  let conf :=
    if aa < 5 ∧ sd < 0.1 then (0.92 : ℚ)
    else min 0.95 (0.75 + sd * 0.15 + aa / 100 * 0.1)
  let sev := diseaseSeverityOf disease
  { prediction := pyTitle (underscoreToSpace disease)
    confidence := round2 conf
    details :=
      { disease := disease
        severity := sev
        severity_label := severityLabels.getD sev ""
        urgency := diseaseUrgencyOf disease
        affected_area_pct := aa
        treatment := treatmentOf disease
        prevention_tips := preventionTipsOf disease
        estimated_yield_impact := "-" ++ toString (sev * 8) ++ "% if untreated" }
    model_used := "CropDiseaseDetector_CNN_v1"
    timestamp := now }

/-! ## Pest predictor (`PestPredictor`) -/

/-- Feature mapping accepted by `PestPredictor.predict` (`crop` and
`season` are read by the source but unused in scoring). -/
structure PestFeatures where
  temperature : Option ℚ
  humidity : Option ℚ
  crop : Option String
  season : Option String

/-- One iteration of the per-pest risk loop: membership factor 1.0 inside
the pest's temperature/humidity range, 0.5 outside, times the drawn
jitter. -/
def pestRisk (t h jv : ℚ) (name : String) (tlo thi hlo hhi : ℚ) :
    String × ℚ :=
  (name,
    round2 ((if tlo ≤ t ∧ t ≤ thi then 1 else 0.5) *
            (if hlo ≤ h ∧ h ≤ hhi then 1 else 0.5) * jv))

/-- The risk loop over `self.pests`, unrolled in dictionary order; `j i`
is the `np.random.uniform(0.7, 1.0)` value drawn at iteration `i`. -/
def pestRisks (t h : ℚ) (j : ℕ → ℚ) : List (String × ℚ) :=
  [pestRisk t h (j 0) "aphids" 18 28 50 80,
   pestRisk t h (j 1) "whiteflies" 22 32 40 70,
   pestRisk t h (j 2) "thrips" 20 30 30 60,
   pestRisk t h (j 3) "caterpillars" 20 28 50 80,
   pestRisk t h (j 4) "mites" 25 35 20 50,
   pestRisk t h (j 5) "locusts" 25 38 30 60]

/-- Python `max(iterable, key=...)` over association values: scans left to
right and keeps the first entry of maximal value. -/
def argmaxQ : (String × ℚ) → List (String × ℚ) → String × ℚ
  | best, [] => best
  | best, x :: xs => argmaxQ (if best.2 < x.2 then x else best) xs

/-- Embedding of `max(pest_risks, key=pest_risks.get)` with its value. -/
def pyMaxSnd (l : List (String × ℚ)) : String × ℚ :=
  argmaxQ (l.headD ("", 0)) l.tail

/-- Embedding of `PestPredictor._get_recommendations`. -/
def pestSpecificOf (pest : String) : Option String :=
  if pest = "aphids" then some "Release ladybugs or lacewings as biological control"
  else if pest = "whiteflies" then some "Use yellow sticky traps around crop perimeter"
  else if pest = "thrips" then some "Apply spinosad for organic control"
  else if pest = "caterpillars" then some "Use Bt (Bacillus thuringiensis) spray"
  else if pest = "mites" then some "Increase humidity and apply miticide if severe"
  else if pest = "locusts" then some "Report to agricultural authorities if swarm detected"
  else none

/-- Risk-tier recommendation text of `PestPredictor._get_recommendations`. -/
def pestRecommendations (pest : String) (risk : ℚ) : List String :=
  let base :=
    if 0.7 < risk then
      ["High risk of " ++ pest ++ " - Start preventive treatment immediately",
       "Install monitoring traps to track pest population"]
    else if 0.5 < risk then
      ["Moderate risk of " ++ pest ++ " - Increase monitoring frequency",
       "Prepare organic control measures (neem oil, traps)"]
    else ["Low pest risk - Continue regular monitoring"]
  match pestSpecificOf pest with
  | some s => base ++ [s]
  | none => base

/-- The `details` mapping of a pest prediction. -/
structure PestDetails where
  overall_risk : String
  highest_risk_pest : String
  highest_risk_score : ℚ
  all_pest_risks : List (String × ℚ)
  temperature : ℚ
  humidity : ℚ
  favorable_for_pests : Bool
  recommendations : List String

/-- Embedding of `PestPredictor.predict`; `j` supplies the per-pest random jitters. -/
def pestPredict (f : PestFeatures) (j : ℕ → ℚ) (now : String) :
    PredictionResult String PestDetails :=
  let t := f.temperature.getD 25
  let h := f.humidity.getD 60
  let risks := pestRisks t h j
  let best := pyMaxSnd risks
  let highest := best.2
  let level :=
    if 0.8 < highest then "High"
    else if 0.5 < highest then "Medium"
    else "Low"
  { prediction := level
    confidence := round2 (0.7 + highest * 0.25)
    details :=
      { overall_risk := level
        highest_risk_pest := pyTitle best.1
        highest_risk_score := highest
        all_pest_risks := risks.map (fun p => (pyTitle p.1, p.2))
        temperature := t
        humidity := h
        favorable_for_pests := decide (0.6 < highest)
        recommendations := pestRecommendations best.1 highest }
    model_used := "PestPredictor_v1"
    timestamp := now }

/-! ## Irrigation advisor (`IrrigationAdvisor`) -/

/-- Feature mapping accepted by `IrrigationAdvisor.recommend`
(`irrigation_type` is read by `_get_water_saving_tips`). -/
structure IrrigationFeatures where
  soil_moisture : Option ℚ
  temperature : Option ℚ
  humidity : Option ℚ
  crop : Option String
  last_irrigation_hours : Option ℚ
  irrigation_type : Option String

/-- Embedding of `self.crop_water_needs.get(crop, {'daily_mm': 5, 'optimal_moisture': 60})`
as the pair `(daily_mm, optimal_moisture)`. -/
def cropNeedsOf (c : String) : ℚ × ℚ :=
  if c = "wheat" then (4, 55) else if c = "rice" then (8, 80)
  else if c = "maize" then (5, 60) else if c = "cotton" then (6, 55)
  else if c = "tomato" then (5, 65) else if c = "potato" then (5, 60)
  else if c = "vegetables" then (5, 65)
  else (5, 60)

/-- Embedding of `IrrigationAdvisor._get_water_saving_tips`. -/
def waterSavingTips (f : IrrigationFeatures) : List String :=
  (if pyLower (f.irrigation_type.getD "flood") = "flood" then
    ["Switch to drip irrigation to save 30-50% water"]
   else if pyLower (f.irrigation_type.getD "flood") = "sprinkler" then
    ["Consider drip irrigation for water-sensitive crops"]
   else []) ++
  (if 30 < f.temperature.getD 25 then
    ["Apply mulch to reduce evaporation by 25%"]
   else []) ++
  ["Irrigate during cooler hours to reduce water loss",
   "Use soil moisture sensors for precision irrigation"]

/-- The `details` mapping of an irrigation recommendation (the
`current_conditions` and `crop_info` sub-mappings are flattened). -/
structure IrrigationDetails where
  action : String
  urgency : String
  water_amount_mm : ℚ
  water_amount_liters_per_m2 : ℚ
  best_time : String
  soil_moisture_pct : ℚ
  optimal_moisture_pct : ℚ
  moisture_deficit_pct : ℚ
  evapotranspiration_mm : ℚ
  crop : String
  daily_water_need_mm : ℚ
  water_saving_tips : List String

/-- Embedding of `IrrigationAdvisor.recommend`. -/
def irrigationRecommend (f : IrrigationFeatures) (now : String) :
    PredictionResult String IrrigationDetails :=
  let sm := f.soil_moisture.getD 50
  let t := f.temperature.getD 25
  let h := f.humidity.getD 60
  let crop := pyLower (f.crop.getD "vegetables")
  let needs := cropNeedsOf crop
  let et := max 2 (min 10 (0.0023 * (t + 17.8) * (100 - h) / 100 * 5))
  let deficit := needs.2 - sm
  let w0 := max 0 (deficit * 0.4 + et)
  let adw : String × String × ℚ :=
    if 20 < deficit then ("Irrigate Immediately", "high", w0)
    else if 10 < deficit then ("Irrigate Within 6 Hours", "medium", w0)
    else if 5 < deficit then ("Irrigate Within 24 Hours", "low", w0)
    else ("No Irrigation Needed", "none", 0)
  let bestTime :=
    if 30 < t then "Early morning (5-7 AM) or evening (5-7 PM)"
    else "Morning (6-10 AM)"
  { prediction := adw.1
    confidence := 0.88
    details :=
      { action := adw.1
        urgency := adw.2.1
        water_amount_mm := round1 adw.2.2
        water_amount_liters_per_m2 := round1 adw.2.2
        best_time := bestTime
        soil_moisture_pct := sm
        optimal_moisture_pct := needs.2
        moisture_deficit_pct := round1 deficit
        evapotranspiration_mm := round2 et
        crop := crop
        daily_water_need_mm := needs.1
        water_saving_tips := waterSavingTips f }
    model_used := "SmartIrrigationAdvisor_v1"
    timestamp := now }

/-! ## Market price predictor (`MarketPricePredictor`) -/

/-- Feature mapping accepted by `MarketPricePredictor.predict`. -/
structure PriceFeatures where
  commodity : Option String
  days_ahead : Option ℚ

/-- Embedding of `self.base_prices.get(commodity, 2000)`. -/
def basePriceOf (c : String) : ℚ :=
  if c = "wheat" then 2200 else if c = "rice" then 3500
  else if c = "maize" then 1800 else if c = "soybean" then 4500
  else if c = "cotton" then 6000 else if c = "sugarcane" then 350
  else if c = "potato" then 1500 else if c = "tomato" then 2500
  else if c = "onion" then 2000
  else 2000

/-- Embedding of `volatility = 0.05 + (days_ahead / 30) * 0.1`. -/
def priceVolatility (d : ℚ) : ℚ := 0.05 + d / 30 * 0.1

/-- The `details` mapping of a price prediction; `price_low`/`price_high`
are the endpoints formatted into the `price_range` string by the source,
and `seasonal_factor`/`trend` the numbers formatted into `factors`. -/
structure PriceDetails where
  commodity : String
  predicted_price_per_quintal : ℚ
  price_low : ℚ
  price_high : ℚ
  prediction_period_days : ℚ
  market_sentiment : String
  recommendation : String
  seasonal_factor : ℚ
  trend : ℚ

/-- Embedding of `MarketPricePredictor.predict`; `s` is the ambient value of
`sin(2π·month/12)` for the current month and `trend` the value drawn by
`np.random.uniform(-0.05, 0.08)`. -/
def pricePredict (f : PriceFeatures) (s trend : ℚ) (now : String) :
    PredictionResult ℚ PriceDetails :=
  let commodity := pyLower (f.commodity.getD "wheat")
  let d := f.days_ahead.getD 7
  let seasonal := 1 + 0.15 * s
  let p := basePriceOf commodity * seasonal * (1 + trend)
  let vol := priceVolatility d
  let sr : String × String :=
    if 0.03 < trend then ("Bullish", "Good time to sell")
    else if trend < -0.03 then
      ("Bearish", "Consider holding or wait for better prices")
    else ("Neutral", "Market is stable, sell based on your needs")
  { prediction := round2 p
    confidence := max 0.6 (0.9 - d * 0.01)
    details :=
      { commodity := pyTitle commodity
        predicted_price_per_quintal := round2 p
        price_low := p * (1 - vol)
        price_high := p * (1 + vol)
        prediction_period_days := d
        market_sentiment := sr.1
        recommendation := sr.2
        seasonal_factor := seasonal
        trend := trend }
    model_used := "MarketPricePredictor_v1"
    timestamp := now }

/-! ## Advisory dialogue engine (`AgriChatbot`)

The intent patterns of the source are regexes of two shapes only:
`\b(w1|w2|...)\b` and, for `crop_info`,
`\b(g1|...)\b.*\b(h1|...)\b`.  They are embedded as such, with a direct
word-boundary matcher over the lowered message (`\w` is modelled for the
ASCII alphabet used by the table). -/

/-- Regex `\w` (ASCII): letters, digits and underscore. -/
def wordChar (c : Char) : Bool := c.isAlphanum || c = '_'

/-- Occurrence of the literal word `pat` at the current position with a
`\b` boundary on each side; `prev` is the character just before the
position (`none` at the start of the string). -/
def boundaryMatchAt (pat : List Char) (prev : Option Char) (cs : List Char) :
    Bool :=
  pat.isPrefixOf cs &&
  (match prev with | none => true | some c => !wordChar c) &&
  (match cs.drop pat.length with | [] => true | c :: _ => !wordChar c)

/-- Search for a `\b pat \b` occurrence anywhere in `cs`. -/
def searchWord (pat : List Char) : Option Char → List Char → Bool
  | prev, [] => boundaryMatchAt pat prev []
  | prev, c :: cs => boundaryMatchAt pat prev (c :: cs) || searchWord pat (some c) cs

/-- Search for a `\b(alt)\b` occurrence whose start is not preceded by a
newline in the scanned gap (the `.*` of the source regex does not cross
line breaks). -/
def searchNoNl (alts : List String) : Option Char → List Char → Bool
  | _, [] => false
  | prev, c :: cs =>
      alts.any (fun a => boundaryMatchAt a.data prev (c :: cs)) ||
      (if c = '\n' then false else searchNoNl alts (some c) cs)

/-- Matcher for the two-group pattern `\b(g1)\b.*\b(g2)\b`. -/
def seqMatch (g1 g2 : List String) : Option Char → List Char → Bool
  | _, [] => false
  | prev, c :: cs =>
      g1.any (fun a =>
        boundaryMatchAt a.data prev (c :: cs) &&
        searchNoNl g2 (some (a.data.getLastD ' '))
          (List.drop a.data.length (c :: cs))) ||
      seqMatch g1 g2 (some c) cs

/-- Shape of the intent patterns of `self.intents`. -/
inductive Pat where
  | alts : List String → Pat
  | seq : List String → List String → Pat

/-- Pattern match against a (lowered) message. -/
def patMatch : Pat → List Char → Bool
  | .alts ws, cs => ws.any (fun a => searchWord a.data none cs)
  | .seq g1 g2, cs => seqMatch g1 g2 none cs

/-- The ordered intent table of `AgriChatbot.__init__`. -/
def intentTable : List (String × Pat) :=
  [("greeting", .alts ["hello", "hi", "hey", "good morning", "good evening", "namaste"]),
   ("crop_info", .seq ["grow", "plant", "cultivate", "crop", "farming"]
      ["wheat", "rice", "maize", "cotton", "tomato", "potato", "soybean"]),
   ("disease", .alts ["disease", "infection", "sick", "yellow", "brown", "spots", "wilting", "dying"]),
   ("fertilizer", .alts ["fertilizer", "npk", "nitrogen", "phosphorus", "potassium", "nutrient", "deficiency"]),
   ("pest", .alts ["pest", "insect", "bug", "aphid", "caterpillar", "worm", "beetle", "mite"]),
   ("irrigation", .alts ["water", "irrigation", "irrigate", "watering", "moisture", "dry", "wet"]),
   ("weather", .alts ["weather", "rain", "temperature", "frost", "heat", "cold", "monsoon"]),
   ("price", .alts ["price", "market", "sell", "rate", "mandi", "cost"]),
   ("season", .alts ["season", "when to plant", "sowing time", "harvest time", "kharif", "rabi"]),
   ("soil", .alts ["soil", "ph", "acidic", "alkaline", "clay", "sandy", "loamy"]),
   ("yield", .alts ["yield", "production", "output", "harvest", "tons", "quintals"]),
   ("organic", .alts ["organic", "natural", "chemical-free", "bio", "compost"]),
   ("help", .alts ["help", "what can you do", "options", "commands"]),
   ("thanks", .alts ["thank", "thanks", "thankyou", "appreciate"]),
   ("goodbye", .alts ["bye", "goodbye", "see you", "quit", "exit"])]

/-- Embedding of `AgriChatbot._detect_intent`: lower the message, scan the
table in order, first match wins with confidence 0.85, otherwise
`('general', 0.5)`. -/
def detectIntent (tbl : List (String × Pat)) (message : String) : String × ℚ :=
  match tbl.find? (fun q => patMatch q.2 (pyLower message).data) with
  | some q => (q.1, 0.85)
  | none => ("general", 0.5)

/-- One crop entry of the knowledge base (`info.get(...)` keys are
optional). -/
structure CropInfo where
  growing_season : Option String
  optimal_temperature : Option String
  water_requirement : Option String
  soil_type : Option String
  ph_range : Option String
  major_diseases : Option (List String)
  fertilizer_npk : Option String
  yield_potential : Option String

/-- The knowledge base loaded at engine construction. -/
structure Knowledge where
  crop_info : List (String × CropInfo)
  disease_treatments : List (String × String)
  fertilizer_guide : List (String × String)

/-- Embedding of `AgriChatbot._get_default_knowledge`. -/
def defaultKnowledge : Knowledge :=
  { crop_info :=
      [("wheat",
        { growing_season := some "October to April (Rabi)"
          optimal_temperature := some "15-25°C"
          water_requirement := some "450-650 mm"
          soil_type := some "Well-drained loamy soil"
          ph_range := some "6.0-7.5"
          major_diseases := none
          fertilizer_npk := none
          yield_potential := none }),
       ("rice",
        { growing_season := some "June to November (Kharif)"
          optimal_temperature := some "20-35°C"
          water_requirement := some "1200-1400 mm"
          soil_type := some "Clay or clay loam"
          ph_range := some "5.5-6.5"
          major_diseases := none
          fertilizer_npk := none
          yield_potential := none })]
    disease_treatments :=
      [("rust", "Apply Propiconazole 1ml/L"), ("blight", "Apply Mancozeb 2.5g/L")]
    fertilizer_guide :=
      [("nitrogen_deficiency", "Apply urea at 50-100 kg/ha"),
       ("phosphorus_deficiency", "Apply DAP at 50-75 kg/ha")] }

/-- Embedding of the `ChatMessage` dataclass; the metadata mapping is the
optional `(intent, confidence)` pair attached to assistant entries. -/
structure ChatMessage where
  role : String
  content : String
  timestamp : String
  metadata : Option (String × ℚ)

/-- State of one `AgriChatbot` instance. -/
structure BotState where
  name : String
  version : String
  conversation_history : List ChatMessage
  knowledge : Knowledge
  intents : List (String × Pat)

/-- The freshly constructed engine (`AgriChatbot()` with the built-in
default knowledge). -/
def initBot : BotState :=
  { name := "AgriBot"
    version := "1.0"
    conversation_history := []
    knowledge := defaultKnowledge
    intents := intentTable }

/-- Ambient inputs of one `chat` call: the clock strings used for the two
transcript entries and the returned timestamp, and the index drawn by
`random.choice` in the canned-reply handlers. -/
structure ChatEnv where
  userTs : String
  asstTs : String
  retTs : String
  pick : ℕ

/-- Embedding of `AgriChatbot._extract_crop`. -/
def extractCrop (message : String) : Option String :=
  ["wheat", "rice", "maize", "cotton", "tomato", "potato", "soybean",
   "sugarcane", "onion"].find? (fun c => pyContains (pyLower message) c)

/-- Canned greetings of `_handle_greeting`. -/
def greetingReplies : List String :=
  ["Hello! I'm AgriBot, your agricultural assistant. How can I help you today?",
   "Namaste! Welcome to AgriBot. I can help you with crop information, disease identification, fertilizer recommendations, and more. What would you like to know?",
   "Hi there! I'm here to help with all your farming questions. Ask me about crops, pests, irrigation, or anything agriculture-related!"]

/-- Embedding of `AgriChatbot._handle_greeting` (`random.choice` modelled
by the drawn index). -/
def handleGreeting (env : ChatEnv) : String :=
  greetingReplies.getD (env.pick % 3) ""

/-- Embedding of `AgriChatbot._handle_crop_info`. -/
def handleCropInfo (kb : Knowledge) (message : String) : String :=
  match extractCrop message with
  | some crop =>
    match List.lookup crop kb.crop_info with
    | some info =>
        "📌 **" ++ pyTitle crop ++ " Growing Guide:**\n\n" ++
        "🗓️ **Season:** " ++ info.growing_season.getD "Varies by region" ++ "\n" ++
        "🌡️ **Temperature:** " ++ info.optimal_temperature.getD "20-30°C" ++ "\n" ++
        "💧 **Water Requirement:** " ++ info.water_requirement.getD "500-800mm" ++ "\n" ++
        "🌱 **Soil Type:** " ++ info.soil_type.getD "Well-drained loamy soil" ++ "\n" ++
        "⚗️ **pH Range:** " ++ info.ph_range.getD "6.0-7.0" ++ "\n\n" ++
        (match info.major_diseases with
         | some l => "⚠️ **Common Diseases:** " ++ String.intercalate ", " l ++ "\n"
         | none => "") ++
        (match info.fertilizer_npk with
         | some s => "🧪 **Recommended NPK:** " ++ s ++ "\n"
         | none => "") ++
        (match info.yield_potential with
         | some s => "📊 **Yield Potential:** " ++ s ++ "\n"
         | none => "")
    | none =>
        "I have basic information about " ++ crop ++ ". For detailed guidance, please consult your local agricultural extension office or use our Crop Yield Predictor tool."
  | none =>
      "Which crop would you like to know about? I can provide information on wheat, rice, maize, cotton, tomato, potato, and more."

/-- Symptom table of `_handle_disease`, in dictionary order. -/
def symptomsTable : List (String × String) :=
  [("yellow", "Yellow leaves may indicate nitrogen deficiency or viral infection."),
   ("brown", "Brown spots often indicate fungal diseases like leaf blight."),
   ("spots", "Spots on leaves could be bacterial or fungal infections."),
   ("wilting", "Wilting may indicate root rot, fusarium wilt, or water stress."),
   ("powder", "White powdery coating suggests powdery mildew infection.")]

/-- Embedding of `AgriChatbot._handle_disease`. -/
def handleDisease (message : String) : String :=
  let ml := pyLower message
  let found := (symptomsTable.filter (fun p => pyContains ml p.1)).map
    (fun p => "• **" ++ pyTitle p.1 ++ " leaves:** " ++ p.2)
  "🔬 **Crop Disease Guidance:**\n\n" ++
  (if found.isEmpty then
    "To help identify the disease, please describe:\n• What symptoms do you see? (spots, wilting, color changes)\n• Which crop is affected?\n• How long have you noticed this?\n\n💡 **Tip:** Use our Disease Detection feature to upload a photo for instant AI diagnosis!"
   else
    "Based on your description:\n" ++ String.intercalate "\n" found ++
    "\n\n**Recommendations:**\n1. Take clear photos of affected plants\n2. Use our Disease Detection tool for AI-based diagnosis\n3. Isolate severely affected plants\n4. Avoid overhead irrigation\n")

/-- NPK recommendation table of `_handle_fertilizer`. -/
def npkOf (c : String) : Option String :=
  if c = "wheat" then some "120:60:40" else if c = "rice" then some "100:50:50"
  else if c = "maize" then some "150:75:40" else if c = "cotton" then some "80:40:40"
  else if c = "tomato" then some "100:50:50" else if c = "potato" then some "150:100:100"
  else none

/-- Embedding of `AgriChatbot._handle_fertilizer`. -/
def handleFertilizer (message : String) : String :=
  let ml := pyLower message
  let r :=
    "🧪 **Fertilizer Guidance:**\n\n" ++
    (if pyContains ml "nitrogen" || pyContains ml "yellow" then
      "**Nitrogen Deficiency:**\n• Symptoms: Yellowing of older leaves, stunted growth\n• Solution: Apply Urea (46% N) at 50-100 kg/ha\n• Timing: Split application - 50% at sowing, 50% after 30 days\n\n"
     else "") ++
    (if pyContains ml "phosphorus" || pyContains ml "purple" then
      "**Phosphorus Deficiency:**\n• Symptoms: Purple coloration, poor root development\n• Solution: Apply DAP or SSP at 50-75 kg/ha\n• Timing: At sowing time (basal application)\n\n"
     else "") ++
    (if pyContains ml "potassium" || pyContains ml "edge" then
      "**Potassium Deficiency:**\n• Symptoms: Brown leaf edges, weak stems\n• Solution: Apply MOP at 40-60 kg/ha\n• Timing: At sowing or first irrigation\n\n"
     else "") ++
    (match extractCrop message with
     | some crop =>
       match npkOf crop with
       | some npk => "**Recommended NPK for " ++ pyTitle crop ++ ":** " ++ npk ++ " kg/ha\n\n"
       | none => ""
     | none => "")
  if r.length < 100 then
    r ++ "**General NPK Guidelines:**\n• N (Nitrogen): For leafy growth\n• P (Phosphorus): For roots and flowers\n• K (Potassium): For overall plant health\n\nTell me your crop and I'll provide specific recommendations!"
  else r

/-- Pest guide table of `_handle_pest`: name, identification, damage,
organic control, chemical control. -/
def pestsGuide : List (String × String × String × String × String) :=
  [("aphid", "Small soft-bodied insects (green/black)", "Suck sap, transmit viruses",
    "Neem oil (5ml/L), release ladybugs", "Imidacloprid (0.5ml/L)"),
   ("caterpillar", "Larvae with chewing mouthparts", "Eat leaves and fruits",
    "Bt spray, hand picking", "Chlorantraniliprole (0.3ml/L)"),
   ("whitefly", "Tiny white flying insects", "Suck sap, cause sooty mold",
    "Yellow sticky traps, neem spray", "Thiamethoxam (0.3g/L)")]

/-- Embedding of `AgriChatbot._handle_pest`. -/
def handlePest (message : String) : String :=
  let ml := pyLower message
  "🐛 **Pest Control Guidance:**\n\n" ++
  (match pestsGuide.find? (fun p => pyContains ml p.1) with
   | some p =>
      "**" ++ pyTitle p.1 ++ " Control:**\n\n" ++
      "🔍 **Identification:** " ++ p.2.1 ++ "\n" ++
      "⚠️ **Damage:** " ++ p.2.2.1 ++ "\n" ++
      "🌿 **Organic Control:** " ++ p.2.2.2.1 ++ "\n" ++
      "💊 **Chemical Control:** " ++ p.2.2.2.2 ++ "\n\n" ++
      "**Prevention Tips:**\n• Regular monitoring of crops\n• Maintain field hygiene\n• Use resistant varieties\n"
   | none =>
      "Common pests and quick solutions:\n\n🐛 **Aphids:** Neem oil spray (5ml/L)\n🦋 **Caterpillars:** Bt spray or hand picking\n🪰 **Whiteflies:** Yellow sticky traps\n🕷️ **Mites:** Increase humidity, apply miticide\n\nTell me which pest you're dealing with for specific advice!")

/-- Water-needs table of `_handle_irrigation`: need level, total amount,
tip. -/
def waterNeedsOf (c : String) : Option (String × String × String) :=
  if c = "rice" then some ("High", "1200-1400mm", "Standing water for most of growth")
  else if c = "wheat" then some ("Medium", "450-650mm", "4-6 irrigations at critical stages")
  else if c = "maize" then some ("Medium", "500-800mm", "Critical at tasseling and grain filling")
  else if c = "cotton" then some ("Medium-High", "700-1200mm", "Avoid water stress at flowering")
  else if c = "tomato" then some ("Medium", "400-600mm", "Regular watering, avoid waterlogging")
  else if c = "potato" then some ("Medium", "500-700mm", "Keep soil consistently moist")
  else none

/-- Embedding of `AgriChatbot._handle_irrigation`. -/
def handleIrrigation (message : String) : String :=
  "💧 **Irrigation Guidance:**\n\n" ++
  (match extractCrop message with
   | some crop =>
     match waterNeedsOf crop with
     | some w =>
        "**" ++ pyTitle crop ++ " Water Requirements:**\n• Water Need: " ++ w.1 ++
        "\n• Total Requirement: " ++ w.2.1 ++ "\n• Tip: " ++ w.2.2 ++ "\n\n"
     | none => ""
   | none => "") ++
  "**Irrigation Methods Comparison:**\n\n🚿 **Drip Irrigation:**\n• Water saving: 30-50%\n• Best for: Vegetables, fruits, cotton\n\n💦 **Sprinkler:**\n• Water saving: 20-30%\n• Best for: Field crops, lawns\n\n🌊 **Flood Irrigation:**\n• Efficiency: 40-50%\n• Best for: Rice, sugarcane\n\n💡 **Tip:** Use our Smart Irrigation tool for real-time recommendations!"

/-- Embedding of `AgriChatbot._handle_weather`. -/
def handleWeather (message : String) : String :=
  let ml := pyLower message
  let r :=
    "🌤️ **Weather Advisory:**\n\n" ++
    (if pyContains ml "rain" || pyContains ml "monsoon" then
      "**Rainy Season Tips:**\n• Ensure proper field drainage\n• Apply fungicide preventively\n• Stake tall plants\n• Harvest mature crops before heavy rain\n\n"
     else "") ++
    (if pyContains ml "heat" || pyContains ml "hot" then
      "**Heat Wave Protection:**\n• Increase irrigation frequency\n• Apply mulch (5-7cm layer)\n• Use shade nets for sensitive crops\n• Irrigate during cooler hours\n\n"
     else "") ++
    (if pyContains ml "frost" || pyContains ml "cold" then
      "**Frost Protection:**\n• Cover plants with cloth/plastic\n• Irrigate before frost (releases heat)\n• Use windbreaks\n• Harvest sensitive crops\n\n"
     else "")
  if r.length < 100 then
    r ++ "Weather affects farming in many ways. What specific weather concern do you have?\n• Heavy rain / monsoon\n• Heat wave / drought\n• Frost / cold\n• Wind / storms"
  else r

/-- Embedding of `AgriChatbot._handle_help`. -/
def handleHelp : String :=
  "🤖 **AgriBot Help Menu:**\n\nI can assist you with:\n\n🌾 **Crop Information**\nAsk: \"How to grow wheat?\" or \"Tell me about rice cultivation\"\n\n🔬 **Disease Identification**\nAsk: \"My tomato leaves have spots\" or \"Yellow leaves on my crop\"\n\n🧪 **Fertilizer Guidance**\nAsk: \"What fertilizer for wheat?\" or \"Nitrogen deficiency symptoms\"\n\n🐛 **Pest Control**\nAsk: \"How to control aphids?\" or \"Caterpillar in my field\"\n\n💧 **Irrigation**\nAsk: \"Water requirement for rice\" or \"Best irrigation method\"\n\n🌤️ **Weather Advice**\nAsk: \"How to protect from frost?\" or \"Monsoon farming tips\"\n\n📊 **Market Prices**\nAsk: \"Wheat price today\" or \"Best time to sell rice\"\n\n💡 **Tips:**\n• Be specific about your crop\n• Describe symptoms clearly\n• Mention your region if relevant\n\nType your question to get started!"

/-- Canned replies of `_handle_thanks`. -/
def thanksReplies : List String :=
  ["You're welcome! Feel free to ask if you have more questions. Happy farming! 🌾",
   "Glad I could help! Best wishes for a great harvest! 🚜",
   "My pleasure! Don't hesitate to return for more agricultural guidance. 🌱"]

/-- Embedding of `AgriChatbot._handle_thanks`. -/
def handleThanks (env : ChatEnv) : String :=
  thanksReplies.getD (env.pick % 3) ""

/-- Canned replies of `_handle_goodbye`. -/
def goodbyeReplies : List String :=
  ["Goodbye! Wishing you a bountiful harvest! 🌾",
   "Take care! Visit again for agricultural advice. Happy farming! 🚜",
   "See you soon! May your fields flourish! 🌻"]

/-- Embedding of `AgriChatbot._handle_goodbye`. -/
def handleGoodbye (env : ChatEnv) : String :=
  goodbyeReplies.getD (env.pick % 3) ""

/-- Embedding of `AgriChatbot._handle_general`. -/
def handleGeneral (message : String) : String :=
  "I understand you're asking about: \"" ++ message ++ "\"\n\nI'm specialized in agricultural topics. I can help with:\n\n• 🌾 Crop cultivation and care\n• 🔬 Disease identification and treatment\n• 🧪 Fertilizer recommendations\n• 🐛 Pest control\n• 💧 Irrigation guidance\n• 🌤️ Weather advisories\n• 📊 Market information\n\nCould you rephrase your question or ask about one of these topics?\n\nType \"help\" to see all my capabilities!"

/-- Dispatch of `chat` over the `intent_handlers` mapping: the intents
`price`, `season`, `soil`, `yield`, `organic` and `general` have no entry
of their own and fall back to the general handler. -/
def generateResponse (kb : Knowledge) (env : ChatEnv) (message intent : String) :
    String :=
  if intent = "greeting" then handleGreeting env
  else if intent = "crop_info" then handleCropInfo kb message
  else if intent = "disease" then handleDisease message
  else if intent = "fertilizer" then handleFertilizer message
  else if intent = "pest" then handlePest message
  else if intent = "irrigation" then handleIrrigation message
  else if intent = "weather" then handleWeather message
  else if intent = "help" then handleHelp
  else if intent = "thanks" then handleThanks env
  else if intent = "goodbye" then handleGoodbye env
  else handleGeneral message

/-- The mapping returned by `chat`. -/
structure ChatResult where
  response : String
  intent : String
  confidence : ℚ
  timestamp : String

/-- Embedding of `AgriChatbot.chat`: append the user entry, detect the
intent, build the response, append the assistant entry tagged with the
intent metadata, and return the response mapping. -/
def chat (st : BotState) (env : ChatEnv) (message : String) :
    BotState × ChatResult :=
  let ic := detectIntent st.intents message
  let resp := generateResponse st.knowledge env message ic.1
  ({ st with
      conversation_history := st.conversation_history ++
        [{ role := "user", content := message, timestamp := env.userTs,
           metadata := none },
         { role := "assistant", content := resp, timestamp := env.asstTs,
           metadata := some ic }] },
   { response := resp, intent := ic.1, confidence := ic.2,
     timestamp := env.retTs })

/-- Embedding of `AgriChatbot.get_history`: project each transcript entry
to `(role, content, timestamp)` — the metadata field is not exposed. -/
def getHistory (st : BotState) : List (String × String × String) :=
  st.conversation_history.map (fun m => (m.role, m.content, m.timestamp))

/-- Embedding of `AgriChatbot.clear_history`. -/
def clearHistory (st : BotState) : BotState :=
  { st with conversation_history := [] }

/-- Iterated `chat` calls (left to right). -/
def chatMany (st : BotState) (l : List (ChatEnv × String)) : BotState :=
  l.foldl (fun s p => (chat s p.1 p.2).1) st

/-- Alternation predicate on a transcript: entries at even positions carry
role `user`, entries at odd positions role `assistant`. -/
def rolesAlternate (l : List ChatMessage) : Prop :=
  ∀ i : Fin l.length,
    (l.getD i.1 { role := "", content := "", timestamp := "", metadata := none }).role =
      if i.1 % 2 = 0 then "user" else "assistant"

/-! ## Facts about the rounding model -/

theorem rhe_le (x : ℚ) : (rhe x : ℚ) ≤ x + 1 / 2 := by
  have hf := Int.floor_le x
  have hg := Int.lt_floor_add_one x
  unfold rhe
  split_ifs with h1 h2 h3 <;> push_cast <;> linarith

theorem le_rhe (x : ℚ) : x - 1 / 2 ≤ (rhe x : ℚ) := by
  have hf := Int.floor_le x
  have hg := Int.lt_floor_add_one x
  unfold rhe
  split_ifs with h1 h2 h3 <;> push_cast <;> linarith

theorem round2_le (x : ℚ) : round2 x ≤ x + 1 / 200 := by
  have h := rhe_le (100 * x)
  unfold round2
  linarith

theorem le_round2 (x : ℚ) : x - 1 / 200 ≤ round2 x := by
  have h := le_rhe (100 * x)
  unfold round2
  linarith

theorem round2_nonneg {x : ℚ} (hx : 0 ≤ x) : 0 ≤ round2 x := by
  have h := le_rhe (100 * x)
  have h1 : (-1 : ℚ) < (rhe (100 * x) : ℚ) := by linarith
  have h2 : (-1 : ℤ) < rhe (100 * x) := by exact_mod_cast h1
  have h3 : (0 : ℤ) ≤ rhe (100 * x) := by omega
  have h4 : (0 : ℚ) ≤ (rhe (100 * x) : ℚ) := by exact_mod_cast h3
  unfold round2
  positivity

theorem round2_le_one {x : ℚ} (hx : x ≤ 1) : round2 x ≤ 1 := by
  have h := rhe_le (100 * x)
  have h1 : (rhe (100 * x) : ℚ) < 101 := by linarith
  have h2 : rhe (100 * x) < 101 := by exact_mod_cast h1
  have h3 : rhe (100 * x) ≤ 100 := by omega
  have h4 : (rhe (100 * x) : ℚ) ≤ 100 := by exact_mod_cast h3
  unfold round2
  linarith

theorem round2_lt_round2 {x y : ℚ} (h : x + 1 / 100 < y) : round2 x < round2 y := by
  have h1 := round2_le x
  have h2 := le_round2 y
  linarith

theorem round1_zero : round1 0 = 0 := by
  have h : (0 : ℚ) - ⌊(0 : ℚ)⌋ < 1 / 2 := by norm_num
  unfold round1 rhe
  norm_num

/-! ## Facts about the lookup tables -/

theorem providedFeatures_le_five (f : YieldFeatures) : providedFeatures f ≤ 5 := by
  unfold providedFeatures
  split_ifs <;> omega

theorem two_le_baseYieldOf (c : String) : 2 ≤ baseYieldOf c := by
  unfold baseYieldOf
  split_ifs <;> norm_num

theorem baseYieldOf_of_not_mem {c : String}
    (hc : c ∉ (["wheat", "rice", "maize", "soybean", "cotton", "sugarcane",
                "potato", "tomato"] : List String)) :
    baseYieldOf c = 4.0 := by
  unfold baseYieldOf
  split_ifs <;> simp_all

theorem irrEffectOf_of_not_mem {c : String}
    (hc : c ∉ (["drip", "sprinkler", "flood", "rainfed"] : List String)) :
    irrEffectOf c = 1.0 := by
  unfold irrEffectOf
  split_ifs <;> simp_all

theorem cropNeedsOf_of_not_mem {c : String}
    (hc : c ∉ (["wheat", "rice", "maize", "cotton", "tomato", "potato",
                "vegetables"] : List String)) :
    cropNeedsOf c = (5, 60) := by
  unfold cropNeedsOf
  split_ifs <;> simp_all

theorem basePriceOf_of_not_mem {c : String}
    (hc : c ∉ (["wheat", "rice", "maize", "soybean", "cotton", "sugarcane",
                "potato", "tomato", "onion"] : List String)) :
    basePriceOf c = 2000 := by
  unfold basePriceOf
  split_ifs <;> simp_all

theorem basePriceOf_ge (c : String) : 350 ≤ basePriceOf c := by
  unfold basePriceOf
  split_ifs <;> norm_num

/-! ## Facts about the pest risk loop -/

theorem argmaxQ_init_le (l : List (String × ℚ)) :
    ∀ b : String × ℚ, b.2 ≤ (argmaxQ b l).2 := by
  induction l with
  | nil => intro b; exact le_refl _
  | cons x xs ih =>
      intro b
      unfold argmaxQ
      refine le_trans ?_ (ih (if b.2 < x.2 then x else b))
      split_ifs with h
      · exact le_of_lt h
      · exact le_refl _

theorem argmaxQ_eq_or_mem (l : List (String × ℚ)) :
    ∀ b : String × ℚ, argmaxQ b l = b ∨ argmaxQ b l ∈ l := by
  induction l with
  | nil => intro b; exact Or.inl rfl
  | cons x xs ih =>
      intro b
      unfold argmaxQ
      rcases ih (if b.2 < x.2 then x else b) with h | h
      · rw [h]
        split_ifs with hlt
        · exact Or.inr (List.mem_cons_self _ _)
        · exact Or.inl rfl
      · exact Or.inr (List.mem_cons_of_mem _ h)

theorem argmaxQ_ge_of_mem (l : List (String × ℚ)) :
    ∀ (b x : String × ℚ), x ∈ l → x.2 ≤ (argmaxQ b l).2 := by
  induction l with
  | nil => intro b x hx; cases hx
  | cons y ys ih =>
      intro b x hx
      unfold argmaxQ
      rcases List.mem_cons.1 hx with rfl | hmem
      · refine le_trans ?_ (argmaxQ_init_le ys (if b.2 < x.2 then x else b))
        split_ifs with h
        · exact le_refl _
        · exact le_of_not_lt h
      · exact ih _ x hmem

theorem pyMaxSnd_mem {l : List (String × ℚ)} (hl : l ≠ []) : pyMaxSnd l ∈ l := by
  cases l with
  | nil => exact absurd rfl hl
  | cons a as =>
      unfold pyMaxSnd
      rcases argmaxQ_eq_or_mem as (List.headD (a :: as) ("", 0)) with h | h
      · rw [List.tail_cons, h]; exact List.mem_cons_self _ _
      · rw [List.tail_cons] at *; exact List.mem_cons_of_mem _ h

theorem pyMaxSnd_ge (l : List (String × ℚ)) :
    ∀ x ∈ l, x.2 ≤ (pyMaxSnd l).2 := by
  cases l with
  | nil => intro x hx; cases hx
  | cons a as =>
      intro x hx
      unfold pyMaxSnd
      rcases List.mem_cons.1 hx with rfl | hmem
      · exact argmaxQ_init_le _ _
      · exact argmaxQ_ge_of_mem _ _ _ hmem

theorem pestRisk_snd_unit {t h jv : ℚ} (name : String) (tlo thi hlo hhi : ℚ)
    (h1 : 0.7 ≤ jv) (h2 : jv ≤ 1) :
    0 ≤ (pestRisk t h jv name tlo thi hlo hhi).2 ∧
    (pestRisk t h jv name tlo thi hlo hhi).2 ≤ 1 := by
  unfold pestRisk
  constructor
  · apply round2_nonneg
    split_ifs <;> nlinarith
  · apply round2_le_one
    split_ifs <;> nlinarith

theorem pestRisks_unit {t h : ℚ} {j : ℕ → ℚ}
    (hj : ∀ i, 0.7 ≤ j i ∧ j i ≤ 1) :
    ∀ p ∈ pestRisks t h j, 0 ≤ p.2 ∧ p.2 ≤ 1 := by
  intro p hp
  simp only [pestRisks, List.mem_cons, List.not_mem_nil, or_false] at hp
  rcases hp with rfl | rfl | rfl | rfl | rfl | rfl <;>
    exact pestRisk_snd_unit _ _ _ _ _ (hj _).1 (hj _).2

theorem pestRisks_ne_nil (t h : ℚ) (j : ℕ → ℚ) : pestRisks t h j ≠ [] := by
  simp [pestRisks]

/-! ## Facts about the dialogue transcript -/

theorem getD_append_left {α : Type} (l l' : List α) (d : α) (i : ℕ)
    (h : i < l.length) : (l ++ l').getD i d = l.getD i d := by
  induction l generalizing i with
  | nil => cases h
  | cons a as ih =>
      cases i with
      | zero => rfl
      | succ n =>
          simp only [List.cons_append, List.getD_cons_succ]
          exact ih n (by simpa using h)

theorem getD_append_right {α : Type} (l l' : List α) (d : α) (i : ℕ) :
    (l ++ l').getD (l.length + i) d = l'.getD i d := by
  induction l with
  | nil => simp
  | cons a as ih =>
      simp only [List.cons_append, List.length_cons]
      have : as.length + 1 + i = (as.length + i) + 1 := by omega
      rw [this, List.getD_cons_succ, ih]

theorem chat_history_eq (st : BotState) (env : ChatEnv) (message : String) :
    (chat st env message).1.conversation_history =
      st.conversation_history ++
        [{ role := "user", content := message, timestamp := env.userTs,
           metadata := none },
         { role := "assistant", content := (chat st env message).2.response,
           timestamp := env.asstTs,
           metadata := some ((chat st env message).2.intent,
                             (chat st env message).2.confidence) }] := rfl

theorem rolesAlternate_append_pair {l : List ChatMessage} {u a : ChatMessage}
    (hlen : l.length % 2 = 0) (hl : rolesAlternate l)
    (hu : u.role = "user") (ha : a.role = "assistant") :
    rolesAlternate (l ++ [u, a]) := by
  intro i
  rcases Nat.lt_trichotomy i.1 l.length with h | h | h
  · rw [getD_append_left _ _ _ _ h]
    exact hl ⟨i.1, h⟩
  · have hz : i.1 = l.length + 0 := by omega
    rw [hz, getD_append_right]
    simp only [List.getD_cons_zero]
    rw [if_pos (by omega)]
    exact hu
  · have hi := i.2
    simp only [List.length_append, List.length_cons, List.length_nil] at hi
    have ho : i.1 = l.length + 1 := by omega
    rw [ho, getD_append_right]
    simp only [List.getD_cons_succ, List.getD_cons_zero]
    rw [if_neg (by omega)]
    exact ha

theorem chatMany_cons (st : BotState) (p : ChatEnv × String)
    (tl : List (ChatEnv × String)) :
    chatMany st (p :: tl) = chatMany (chat st p.1 p.2).1 tl := rfl

theorem chatMany_length (l : List (ChatEnv × String)) :
    ∀ st : BotState,
      (chatMany st l).conversation_history.length =
        st.conversation_history.length + 2 * l.length := by
  induction l with
  | nil => intro st; simp [chatMany]
  | cons p tl ih =>
      intro st
      rw [chatMany_cons, ih, chat_history_eq]
      simp only [List.length_append, List.length_cons, List.length_nil,
        List.length_cons]
      omega

theorem chatMany_invariant (l : List (ChatEnv × String)) :
    ∀ st : BotState,
      st.conversation_history.length % 2 = 0 →
      rolesAlternate st.conversation_history →
      (chatMany st l).conversation_history.length % 2 = 0 ∧
        rolesAlternate (chatMany st l).conversation_history := by
  induction l with
  | nil => intro st h1 h2; exact ⟨h1, h2⟩
  | cons p tl ih =>
      intro st h1 h2
      rw [chatMany_cons]
      refine ih _ ?_ ?_
      · rw [chat_history_eq]
        simp only [List.length_append, List.length_cons, List.length_nil]
        omega
      · rw [chat_history_eq]
        exact rolesAlternate_append_pair h1 h2 rfl rfl

/-! ## The claims -/

/-- C8: intent detection lowers the message and scans the fixed intent
table in declaration order; the first pattern that matches wins with
confidence 0.85, and if no pattern matches the intent is `general` with
confidence 0.5.  In particular `"hello there"` classifies as `greeting`
and `"help"` as `help`. -/
theorem intent_scan_first_match_and_examples :
    (∀ message : String,
      (∃ p, intentTable.find? (fun q => patMatch q.2 (pyLower message).data) = some p ∧
            detectIntent intentTable message = (p.1, 0.85)) ∨
      (intentTable.find? (fun q => patMatch q.2 (pyLower message).data) = none ∧
            detectIntent intentTable message = ("general", 0.5))) ∧
    detectIntent intentTable "hello there" = ("greeting", 0.85) ∧
    detectIntent intentTable "help" = ("help", 0.85) := by
  refine ⟨?_, rfl, rfl⟩
  intro message
  cases h : intentTable.find? (fun q => patMatch q.2 (pyLower message).data) with
  | none =>
      refine Or.inr ⟨rfl, ?_⟩
      unfold detectIntent
      rw [h]
  | some p =>
      refine Or.inl ⟨p, rfl, ?_⟩
      unfold detectIntent
      rw [h]

/-- C9: `clear_history` resets the transcript to the empty sequence (so a
following `get_history` returns the empty sequence) and leaves the
knowledge base, the intent table, the name and the version of the engine
unchanged. -/
theorem clear_history_resets_only_transcript (st : BotState) :
    getHistory (clearHistory st) = [] ∧
    (clearHistory st).conversation_history = [] ∧
    (clearHistory st).name = st.name ∧
    (clearHistory st).version = st.version ∧
    (clearHistory st).knowledge = st.knowledge ∧
    (clearHistory st).intents = st.intents :=
  ⟨rfl, rfl, rfl, rfl, rfl, rfl⟩

/-- C10: every `chat` call appends exactly two transcript entries — a
`user` entry holding the input message followed by an `assistant` entry
holding the returned response text — so `n` calls starting from the fresh
engine leave a transcript of length `2n` whose roles alternate starting
with `user`; and `get_history` exposes exactly the role, content and
timestamp of each entry, omitting the metadata. -/
theorem chat_appends_user_then_assistant :
    (∀ (st : BotState) (env : ChatEnv) (message : String),
      (chat st env message).1.conversation_history =
        st.conversation_history ++
          [{ role := "user", content := message, timestamp := env.userTs,
             metadata := none },
           { role := "assistant", content := (chat st env message).2.response,
             timestamp := env.asstTs,
             metadata := some ((chat st env message).2.intent,
                               (chat st env message).2.confidence) }]) ∧
    (∀ l : List (ChatEnv × String),
      (chatMany initBot l).conversation_history.length = 2 * l.length) ∧
    (∀ l : List (ChatEnv × String),
      rolesAlternate (chatMany initBot l).conversation_history) ∧
    (∀ st : BotState,
      getHistory st =
        st.conversation_history.map (fun m => (m.role, m.content, m.timestamp))) ∧
    (∀ st : BotState,
      getHistory { st with conversation_history :=
          st.conversation_history.map (fun m => { m with metadata := none }) } =
        getHistory st) := by
  refine ⟨chat_history_eq, ?_, ?_, fun st => rfl, ?_⟩
  · intro l
    rw [chatMany_length]
    simp [initBot]
  · intro l
    exact (chatMany_invariant l initBot rfl (fun i => i.elim0)).2
  · intro st
    unfold getHistory
    simp only [List.map_map]
    rfl

/-- C1 (counterexample): the claim that `confidence` always lies in
`[0, 1]` fails as stated — the market price predictor applies no clamp,
so the feature mapping `commodity = "wheat"`, `days_ahead = -100` yields
`confidence = max(0.6, 0.9 + 1) = 1.9 > 1` (for any seasonal value and
trend; shown here at seasonal sine 0 and trend 0). -/
theorem price_confidence_above_one :
    1 < (pricePredict ⟨some "wheat", some (-100)⟩ 0 0 "").confidence := by
  have h : (pricePredict ⟨some "wheat", some (-100)⟩ 0 0 "").confidence =
      max 0.6 (0.9 - (-100 : ℚ) * 0.01) := rfl
  rw [h]
  have h19 : (1 : ℚ) < 0.9 - (-100 : ℚ) * 0.01 := by norm_num
  exact lt_max_of_lt_right h19

/-- C1 (amended): for every feature mapping and every outcome of the
internal randomness, each predictor's `confidence` lies in `[0, 1]`,
provided the disease detector's `spot_density` and `affected_area_pct`
are nonnegative and the price predictor's `days_ahead` is nonnegative
(the pest jitters range over their documented interval `[0.7, 1]`);
without those sign conditions the confidence can leave `[0, 1]`. -/
theorem confidence_in_unit_interval :
    (∀ (f : YieldFeatures) (v : ℚ) (now : String),
      0 ≤ (yieldPredict f v now).confidence ∧
      (yieldPredict f v now).confidence ≤ 1) ∧
    (∀ (f : DiseaseFeatures) (pick : Fin 3) (now : String),
      0 ≤ f.spot_density.getD 0 → 0 ≤ f.affected_area_pct.getD 0 →
      0 ≤ (diseaseDetect f pick now).confidence ∧
      (diseaseDetect f pick now).confidence ≤ 1) ∧
    (∀ (f : PestFeatures) (j : ℕ → ℚ) (now : String),
      (∀ i, 0.7 ≤ j i ∧ j i ≤ 1) →
      0 ≤ (pestPredict f j now).confidence ∧
      (pestPredict f j now).confidence ≤ 1) ∧
    (∀ (f : IrrigationFeatures) (now : String),
      0 ≤ (irrigationRecommend f now).confidence ∧
      (irrigationRecommend f now).confidence ≤ 1) ∧
    (∀ (f : PriceFeatures) (s trend : ℚ) (now : String),
      0 ≤ f.days_ahead.getD 7 →
      0 ≤ (pricePredict f s trend now).confidence ∧
      (pricePredict f s trend now).confidence ≤ 1) := by
  refine ⟨?_, ?_, ?_, ?_, ?_⟩
  · intro f v now
    have hk : (providedFeatures f : ℚ) ≤ 5 := by
      exact_mod_cast providedFeatures_le_five f
    have hk0 : (0 : ℚ) ≤ (providedFeatures f : ℚ) := Nat.cast_nonneg _
    simp only [yieldPredict]
    constructor
    · apply round2_nonneg; nlinarith
    · apply round2_le_one; nlinarith
  · intro f pick now h1 h2
    simp only [diseaseDetect]
    constructor
    · apply round2_nonneg
      split_ifs with hcond
      · norm_num
      · refine le_min (by norm_num) ?_
        nlinarith
    · apply round2_le_one
      split_ifs with hcond
      · norm_num
      · exact le_trans (min_le_left _ _) (by norm_num)
  · intro f j now hj
    simp only [pestPredict]
    have hmem := pyMaxSnd_mem
      (pestRisks_ne_nil (f.temperature.getD 25) (f.humidity.getD 60) j)
    have hb := pestRisks_unit hj _ hmem
    constructor
    · apply round2_nonneg; nlinarith [hb.1, hb.2]
    · apply round2_le_one; nlinarith [hb.1, hb.2]
  · intro f now
    simp only [irrigationRecommend]
    constructor <;> norm_num
  · intro f s trend now hd
    simp only [pricePredict]
    constructor
    · exact le_trans (by norm_num) (le_max_left 0.6 _)
    · refine max_le (by norm_num) ?_
      nlinarith

/-- C1 (witness): the amended bounds instantiated at concrete feature
mappings, discharging each hypothesis. -/
theorem confidence_in_unit_interval_witness :
    (0 ≤ (yieldPredict ⟨none, none, none, none, none, none⟩ 1 "").confidence ∧
     (yieldPredict ⟨none, none, none, none, none, none⟩ 1 "").confidence ≤ 1) ∧
    (0 ≤ (diseaseDetect ⟨none, none, none, none, none⟩ 0 "").confidence ∧
     (diseaseDetect ⟨none, none, none, none, none⟩ 0 "").confidence ≤ 1) ∧
    (0 ≤ (pestPredict ⟨none, none, none, none⟩ (fun _ => 0.7) "").confidence ∧
     (pestPredict ⟨none, none, none, none⟩ (fun _ => 0.7) "").confidence ≤ 1) ∧
    (0 ≤ (irrigationRecommend ⟨none, none, none, none, none, none⟩ "").confidence ∧
     (irrigationRecommend ⟨none, none, none, none, none, none⟩ "").confidence ≤ 1) ∧
    (0 ≤ (pricePredict ⟨none, some 7⟩ 0 0 "").confidence ∧
     (pricePredict ⟨none, some 7⟩ 0 0 "").confidence ≤ 1) :=
  ⟨confidence_in_unit_interval.1 ⟨none, none, none, none, none, none⟩ 1 "",
   confidence_in_unit_interval.2.1 ⟨none, none, none, none, none⟩ 0 ""
     (by norm_num) (by norm_num),
   confidence_in_unit_interval.2.2.1 ⟨none, none, none, none⟩ (fun _ => 0.7) ""
     (fun i => by norm_num),
   confidence_in_unit_interval.2.2.2.1 ⟨none, none, none, none, none, none⟩ "",
   confidence_in_unit_interval.2.2.2.2 ⟨none, some 7⟩ 0 0 "" (by norm_num)⟩

/-- C2: the five predictors are total over the default-backed feature
mapping — a missing key behaves exactly as its documented literal default
(temperature 25, rainfall 100, soil pH 6.5, nitrogen 200, irrigation type
`flood`, full defaults for disease/pest features, commodity `wheat`,
days ahead 7), an unrecognised crop falls back to the default base yield
4.0 (same prediction as an absent crop), an unrecognised irrigation type
to multiplier 1.0 (same prediction as `flood`), an unrecognised crop in
the irrigation advisor to the bucket of optimal moisture 60 and 5 mm/day,
and an unrecognised commodity to base price 2000; no input is rejected. -/
theorem predictors_total_with_defaults :
    (∀ (f : YieldFeatures) (v : ℚ) (now : String) (c : String),
      pyLower c ∉ (["wheat", "rice", "maize", "soybean", "cotton",
                    "sugarcane", "potato", "tomato"] : List String) →
      (yieldPredict { f with crop := some c } v now).prediction =
        (yieldPredict { f with crop := none } v now).prediction) ∧
    (∀ (f : YieldFeatures) (v : ℚ) (now : String),
      (yieldPredict { f with temperature := none } v now).prediction =
        (yieldPredict { f with temperature := some 25 } v now).prediction) ∧
    (∀ (f : YieldFeatures) (v : ℚ) (now : String),
      (yieldPredict { f with rainfall := none } v now).prediction =
        (yieldPredict { f with rainfall := some 100 } v now).prediction) ∧
    (∀ (f : YieldFeatures) (v : ℚ) (now : String),
      (yieldPredict { f with soil_ph := none } v now).prediction =
        (yieldPredict { f with soil_ph := some 6.5 } v now).prediction) ∧
    (∀ (f : YieldFeatures) (v : ℚ) (now : String),
      (yieldPredict { f with nitrogen := none } v now).prediction =
        (yieldPredict { f with nitrogen := some 200 } v now).prediction) ∧
    (∀ (f : YieldFeatures) (v : ℚ) (now : String),
      (yieldPredict { f with irrigation_type := none } v now).prediction =
        (yieldPredict { f with irrigation_type := some "flood" } v now).prediction) ∧
    (∀ (f : YieldFeatures) (v : ℚ) (now : String) (c : String),
      pyLower c ∉ (["drip", "sprinkler", "flood", "rainfed"] : List String) →
      (yieldPredict { f with irrigation_type := some c } v now).prediction =
        (yieldPredict { f with irrigation_type := some "flood" } v now).prediction) ∧
    (∀ (pick : Fin 3) (now : String),
      diseaseDetect ⟨none, none, none, none, none⟩ pick now =
        diseaseDetect ⟨some 150, some 0, some 0, some 60, some 25⟩ pick now) ∧
    (∀ (j : ℕ → ℚ) (now : String),
      pestPredict ⟨none, none, none, none⟩ j now =
        pestPredict ⟨some 25, some 60, some "general", some "summer"⟩ j now) ∧
    (∀ (f : IrrigationFeatures) (now : String) (c : String),
      pyLower c ∉ (["wheat", "rice", "maize", "cotton", "tomato", "potato",
                    "vegetables"] : List String) →
      (irrigationRecommend { f with crop := some c } now).details.optimal_moisture_pct = 60 ∧
      (irrigationRecommend { f with crop := some c } now).details.daily_water_need_mm = 5) ∧
    (∀ c : String,
      pyLower c ∉ (["wheat", "rice", "maize", "soybean", "cotton",
                    "sugarcane", "potato", "tomato", "onion"] : List String) →
      basePriceOf (pyLower c) = 2000) ∧
    (∀ (f : PriceFeatures) (s trend : ℚ) (now : String),
      pricePredict { f with commodity := none } s trend now =
        pricePredict { f with commodity := some "wheat" } s trend now) ∧
    (∀ (f : PriceFeatures) (s trend : ℚ) (now : String),
      pricePredict { f with days_ahead := none } s trend now =
        pricePredict { f with days_ahead := some 7 } s trend now) := by
  refine ⟨?_, fun f v now => rfl, fun f v now => rfl, fun f v now => rfl,
          fun f v now => rfl, fun f v now => rfl, ?_,
          fun pick now => rfl, fun j now => rfl, ?_, ?_,
          fun f s trend now => rfl, fun f s trend now => rfl⟩
  · intro f v now c hc
    have hwheat : baseYieldOf (pyLower "wheat") = 4.0 := rfl
    simp only [yieldPredict, Option.getD_some, Option.getD_none]
    rw [baseYieldOf_of_not_mem hc, hwheat]
  · intro f v now c hc
    have hflood : irrEffectOf (pyLower "flood") = 1.0 := rfl
    simp only [yieldPredict, Option.getD_some]
    rw [irrEffectOf_of_not_mem hc, hflood]
  · intro f now c hc
    constructor <;>
      · simp only [irrigationRecommend, Option.getD_some]
        rw [cropNeedsOf_of_not_mem hc]
  · intro c hc
    exact basePriceOf_of_not_mem hc

/-- C2 (witness): default-fallback behaviour at the concrete unrecognised
categorical values `"banana"` (crop), `"canal"` (irrigation type) and
`"quinoa"` (commodity). -/
theorem predictors_total_with_defaults_witness :
    (yieldPredict ⟨some "banana", none, none, none, none, none⟩ 1 "").prediction =
      (yieldPredict ⟨none, none, none, none, none, none⟩ 1 "").prediction ∧
    (yieldPredict ⟨none, none, none, none, none, some "canal"⟩ 1 "").prediction =
      (yieldPredict ⟨none, none, none, none, none, some "flood"⟩ 1 "").prediction ∧
    (irrigationRecommend ⟨none, none, none, some "banana", none, none⟩ "").details.optimal_moisture_pct = 60 ∧
    basePriceOf (pyLower "quinoa") = 2000 :=
  ⟨predictors_total_with_defaults.1 ⟨none, none, none, none, none, none⟩ 1 ""
     "banana" (by decide),
   predictors_total_with_defaults.2.2.2.2.2.2.1 ⟨none, none, none, none, none, none⟩
     1 "" "canal" (by decide),
   (predictors_total_with_defaults.2.2.2.2.2.2.2.2.2.1
     ⟨none, none, none, none, none, none⟩ "" "banana" (by decide)).1,
   predictors_total_with_defaults.2.2.2.2.2.2.2.2.2.2.1 "quinoa" (by decide)⟩

/-- C3: at temperature 24, rainfall 150, soil pH 6.5, nitrogen 400, for
any crop and any pair of variance draws in `[0.95, 1.05]`, the predicted
yield with irrigation type `drip` (multiplier 1.20) strictly exceeds the
predicted yield with irrigation type `rainfed` (multiplier 0.75) on the
same remaining inputs. -/
theorem drip_yield_exceeds_rainfed (crop : Option String) (v1 v2 : ℚ)
    (now : String) (h1 : 0.95 ≤ v1) (h2 : v1 ≤ 1.05)
    (h3 : 0.95 ≤ v2) (h4 : v2 ≤ 1.05) :
    (yieldPredict ⟨crop, some 24, some 150, some 6.5, some 400, some "rainfed"⟩ v2 now).prediction <
    (yieldPredict ⟨crop, some 24, some 150, some 6.5, some 400, some "drip"⟩ v1 now).prediction := by
  have hb := two_le_baseYieldOf (pyLower (crop.getD "wheat"))
  have hdrip : irrEffectOf (pyLower "drip") = 1.20 := rfl
  have hrain : irrEffectOf (pyLower "rainfed") = 0.75 := rfl
  simp only [yieldPredict, Option.getD_some]
  apply round2_lt_round2
  rw [hdrip, hrain]
  rw [if_neg (by norm_num : ¬ (150 : ℚ) < 50), if_pos (by norm_num : (150 : ℚ) < 200)]
  have htemp : max (0.5 : ℚ) (min 1.2 (1 - |(24 : ℚ) - 24| * 0.015)) = 1 := by
    norm_num
  have hrainEff : max (0.4 : ℚ) (min 1.2 (0.9 + ((150 : ℚ) - 50) / 150 * 0.2)) = 31 / 30 := by
    norm_num
  have hph : max (0.7 : ℚ) (min 1.1 (1 - |(6.5 : ℚ) - 6.5| * 0.08)) = 1 := by
    norm_num
  have hfert : min (1.2 : ℚ) (0.7 + (400 : ℚ) / 400 * 0.5) = 1.2 := by
    norm_num
  rw [htemp, hrainEff, hph, hfert]
  have hk : (0.3525 : ℚ) ≤ 1.2 * v1 - 0.75 * v2 := by linarith
  nlinarith [mul_le_mul hb hk (by norm_num) (by linarith),
             mul_le_mul hb h3 (by norm_num) (by linarith)]

/-- C3 (witness): with an absent crop and both variance draws equal to 1,
the drip prediction strictly exceeds the rainfed prediction. -/
theorem drip_yield_exceeds_rainfed_witness :
    (yieldPredict ⟨none, some 24, some 150, some 6.5, some 400, some "rainfed"⟩ 1 "").prediction <
    (yieldPredict ⟨none, some 24, some 150, some 6.5, some 400, some "drip"⟩ 1 "").prediction :=
  drip_yield_exceeds_rainfed none 1 1 "" (by norm_num) (by norm_num)
    (by norm_num) (by norm_num)

/-- C4: whenever `affected_area_pct < 5` and `spot_density < 0.1` — in
particular at the defaults 0 and 0 — the disease detector returns
prediction `"Healthy"` with confidence 0.92, for any humidity and
temperature and independently of the random draw. -/
theorem healthy_detection_deterministic (f : DiseaseFeatures)
    (pick pick' : Fin 3) (now : String)
    (haa : f.affected_area_pct.getD 0 < 5) (hsd : f.spot_density.getD 0 < 0.1) :
    (diseaseDetect f pick now).prediction = "Healthy" ∧
    (diseaseDetect f pick now).confidence = 0.92 ∧
    diseaseDetect f pick now = diseaseDetect f pick' now := by
  refine ⟨?_, ?_, ?_⟩
  · simp only [diseaseDetect, haa, hsd, and_self, if_true]
    rfl
  · simp only [diseaseDetect, haa, hsd, and_self, if_true]
    show round2 0.92 = 0.92
    have h92 : (100 : ℚ) * 0.92 = 92 := by norm_num
    have hfloor : ⌊(92 : ℚ)⌋ = 92 := by
      exact_mod_cast Int.floor_intCast (α := ℚ) 92
    unfold round2 rhe
    rw [h92, hfloor]
    norm_num
  · simp only [diseaseDetect, haa, hsd, and_self, if_true]

/-- C4 (witness): the all-defaults feature mapping (affected area 0, spot
density 0) is detected as healthy with confidence 0.92, for two different
random draws. -/
theorem healthy_detection_deterministic_witness :
    (diseaseDetect ⟨none, none, none, none, none⟩ 0 "").prediction = "Healthy" ∧
    (diseaseDetect ⟨none, none, none, none, none⟩ 0 "").confidence = 0.92 ∧
    diseaseDetect ⟨none, none, none, none, none⟩ 0 "" =
      diseaseDetect ⟨none, none, none, none, none⟩ 1 "" :=
  healthy_detection_deterministic ⟨none, none, none, none, none⟩ 0 1 ""
    (by norm_num) (by norm_num)

/-- C5: for every feature mapping and per-pest jitters in `[0.7, 1]`,
each of the six per-pest risk scores lies in `[0, 1]`, the reported
`highest_risk_score` is the maximum of the scores, and the overall tier
is `High` iff that maximum exceeds 0.8, `Medium` iff it exceeds 0.5 but
not 0.8, and `Low` iff it is at most 0.5. -/
theorem pest_scores_unit_and_tier (f : PestFeatures) (j : ℕ → ℚ)
    (now : String) (hj : ∀ i, 0.7 ≤ j i ∧ j i ≤ 1) :
    (∀ p ∈ (pestPredict f j now).details.all_pest_risks, 0 ≤ p.2 ∧ p.2 ≤ 1) ∧
    ((pestPredict f j now).prediction = "High" ↔
      0.8 < (pestPredict f j now).details.highest_risk_score) ∧
    ((pestPredict f j now).prediction = "Medium" ↔
      (0.5 < (pestPredict f j now).details.highest_risk_score ∧
       ¬ 0.8 < (pestPredict f j now).details.highest_risk_score)) ∧
    ((pestPredict f j now).prediction = "Low" ↔
      (pestPredict f j now).details.highest_risk_score ≤ 0.5) ∧
    ((pestPredict f j now).details.highest_risk_score ∈
      (pestPredict f j now).details.all_pest_risks.map Prod.snd) ∧
    (∀ p ∈ (pestPredict f j now).details.all_pest_risks,
      p.2 ≤ (pestPredict f j now).details.highest_risk_score) := by
  simp only [pestPredict]
  set t := f.temperature.getD 25 with ht
  set h := f.humidity.getD 60 with hh
  have hmem := pyMaxSnd_mem (pestRisks_ne_nil t h j)
  refine ⟨?_, ?_, ?_, ?_, ?_, ?_⟩
  · intro p hp
    rw [List.mem_map] at hp
    obtain ⟨q, hq, rfl⟩ := hp
    exact pestRisks_unit hj q hq
  · split_ifs with hA hB
    · exact iff_of_true rfl hA
    · exact iff_of_false (by decide) hA
    · exact iff_of_false (by decide) hA
  · split_ifs with hA hB
    · exact iff_of_false (by decide) (fun hc => hc.2 hA)
    · exact iff_of_true rfl ⟨hB, hA⟩
    · exact iff_of_false (by decide) (fun hc => hB hc.1)
  · split_ifs with hA hB
    · exact iff_of_false (by decide) (fun hc => by linarith)
    · exact iff_of_false (by decide) (fun hc => by linarith)
    · exact iff_of_true rfl (le_of_not_lt hB)
  · rw [List.map_map]
    have hcomp : (Prod.snd ∘ fun p : String × ℚ => (pyTitle p.1, p.2)) =
        Prod.snd := funext fun p => rfl
    rw [hcomp]
    exact List.mem_map_of_mem Prod.snd hmem
  · intro p hp
    rw [List.mem_map] at hp
    obtain ⟨q, hq, rfl⟩ := hp
    exact pyMaxSnd_ge _ q hq

/-- C5 (witness): the tier characterisation instantiated with all keys
absent and every jitter drawn at 1. -/
theorem pest_scores_unit_and_tier_witness :
    (∀ p ∈ (pestPredict ⟨none, none, none, none⟩ (fun _ => 1) "").details.all_pest_risks,
      0 ≤ p.2 ∧ p.2 ≤ 1) ∧
    ((pestPredict ⟨none, none, none, none⟩ (fun _ => 1) "").prediction = "High" ↔
      0.8 < (pestPredict ⟨none, none, none, none⟩ (fun _ => 1) "").details.highest_risk_score) ∧
    ((pestPredict ⟨none, none, none, none⟩ (fun _ => 1) "").prediction = "Medium" ↔
      (0.5 < (pestPredict ⟨none, none, none, none⟩ (fun _ => 1) "").details.highest_risk_score ∧
       ¬ 0.8 < (pestPredict ⟨none, none, none, none⟩ (fun _ => 1) "").details.highest_risk_score)) ∧
    ((pestPredict ⟨none, none, none, none⟩ (fun _ => 1) "").prediction = "Low" ↔
      (pestPredict ⟨none, none, none, none⟩ (fun _ => 1) "").details.highest_risk_score ≤ 0.5) ∧
    ((pestPredict ⟨none, none, none, none⟩ (fun _ => 1) "").details.highest_risk_score ∈
      (pestPredict ⟨none, none, none, none⟩ (fun _ => 1) "").details.all_pest_risks.map Prod.snd) ∧
    (∀ p ∈ (pestPredict ⟨none, none, none, none⟩ (fun _ => 1) "").details.all_pest_risks,
      p.2 ≤ (pestPredict ⟨none, none, none, none⟩ (fun _ => 1) "").details.highest_risk_score) :=
  pest_scores_unit_and_tier ⟨none, none, none, none⟩ (fun _ => 1) ""
    (fun i => by norm_num)

/-- C6: whenever the supplied soil moisture equals the crop's optimal
moisture target (deficit 0, hence not above 5), the irrigation advisor
returns `"No Irrigation Needed"` with urgency `none` and water amount 0,
for any temperature and humidity. -/
theorem zero_deficit_no_irrigation (f : IrrigationFeatures) (now : String)
    (h : f.soil_moisture.getD 50 =
      (cropNeedsOf (pyLower (f.crop.getD "vegetables"))).2) :
    (irrigationRecommend f now).prediction = "No Irrigation Needed" ∧
    (irrigationRecommend f now).details.urgency = "none" ∧
    (irrigationRecommend f now).details.water_amount_mm = 0 := by
  have hd : (cropNeedsOf (pyLower (f.crop.getD "vegetables"))).2 -
      f.soil_moisture.getD 50 = 0 := by rw [h]; ring
  refine ⟨?_, ?_, ?_⟩ <;>
    · simp only [irrigationRecommend, hd]
      norm_num [round1_zero]

/-- C6 (witness): with the crop absent (default `vegetables`, optimal
moisture 65) and soil moisture 65, no irrigation is recommended. -/
theorem zero_deficit_no_irrigation_witness :
    (irrigationRecommend ⟨some 65, none, none, none, none, none⟩ "").prediction =
      "No Irrigation Needed" ∧
    (irrigationRecommend ⟨some 65, none, none, none, none, none⟩ "").details.urgency =
      "none" ∧
    (irrigationRecommend ⟨some 65, none, none, none, none, none⟩ "").details.water_amount_mm =
      0 :=
  zero_deficit_no_irrigation ⟨some 65, none, none, none, none, none⟩ "" rfl

/-- C7: the volatility used by the price predictor is
`0.05 + (days_ahead/30)·0.1`, hence 0.05 at `days_ahead = 0`; and with
all other inputs fixed the width of the price range
`predicted·(1+volatility) − predicted·(1−volatility)` strictly shrinks as
`days_ahead` decreases. -/
theorem price_volatility_base_and_monotone :
    priceVolatility 0 = 0.05 ∧
    (∀ d : ℚ, priceVolatility d = 0.05 + d / 30 * 0.1) ∧
    (∀ (f : PriceFeatures) (s trend : ℚ) (now : String) (d1 d2 : ℚ),
      -1 ≤ s → s ≤ 1 → -0.05 ≤ trend → trend ≤ 0.08 → d1 < d2 →
      (pricePredict { f with days_ahead := some d1 } s trend now).details.price_high -
        (pricePredict { f with days_ahead := some d1 } s trend now).details.price_low <
      (pricePredict { f with days_ahead := some d2 } s trend now).details.price_high -
        (pricePredict { f with days_ahead := some d2 } s trend now).details.price_low) := by
  refine ⟨by norm_num [priceVolatility], fun d => rfl, ?_⟩
  intro f s trend now d1 d2 hs1 hs2 ht1 ht2 hdd
  have hbase := basePriceOf_ge (pyLower (f.commodity.getD "wheat"))
  simp only [pricePredict, Option.getD_some, priceVolatility]
  have hp : 0 < basePriceOf (pyLower (f.commodity.getD "wheat")) *
      (1 + 0.15 * s) * (1 + trend) := by
    have h1 : (0 : ℚ) < basePriceOf (pyLower (f.commodity.getD "wheat")) := by
      linarith
    have h2 : (0 : ℚ) < 1 + 0.15 * s := by nlinarith
    have h3 : (0 : ℚ) < 1 + trend := by linarith
    exact mul_pos (mul_pos h1 h2) h3
  nlinarith [mul_pos hp (show (0 : ℚ) < d2 - d1 by linarith)]

/-- C7 (witness): the monotone-width statement instantiated at an absent
commodity, seasonal sine 0, trend 0, between horizons 0 and 30 days. -/
theorem price_volatility_base_and_monotone_witness :
    (pricePredict ⟨none, some 0⟩ 0 0 "").details.price_high -
      (pricePredict ⟨none, some 0⟩ 0 0 "").details.price_low <
    (pricePredict ⟨none, some 30⟩ 0 0 "").details.price_high -
      (pricePredict ⟨none, some 30⟩ 0 0 "").details.price_low :=
  price_volatility_base_and_monotone.2.2 ⟨none, none⟩ 0 0 "" 0 30
    (by norm_num) (by norm_num) (by norm_num) (by norm_num) (by norm_num)

end AgriSuite
